import Mathlib

/-!
Shallow embedding of carteruu/cacher (src/cacher.go): a cache-aside read-through
helper with singleflight request deduplication, negative caching and
reflection-based type coercion.

Modelling conventions:
* Go dynamic values (`interface` values) are modelled by a closed universe
  `GoVal` covering the shapes exercised by the library and its default
  converters: string, byte slice, int, uint, bool.  The `float64` default
  converters of cacher.go are omitted (floating point is outside the model),
  as are pointer-shaped dynamic values.
* `time.Duration` is `Int` (nanoseconds); Go division of durations truncates
  toward zero, which is `Int.tdiv`.
* Go errors are modelled as `String`; the exact texts of stdlib parse errors
  are abbreviated to fixed strings, which is sound because cacher.go only
  propagates them opaquely.
* A Go panic is an explicit `Outcome.panicked`.
* The destination argument `v` of `GetWithOption` is modelled by `Dest`,
  already stripped of pointer indirection (the source's `indirect` /
  `indirectType` helpers): either a concretely typed slot or a
  pointer-to-interface slot holding a dynamic value.
-/

/-- The runtime shapes (reflect.Type) in the modelled universe. -/
inductive GoType where
  | str
  | bytes
  | int
  | uint
  | bool
deriving DecidableEq, Repr

/-- Go dynamic (interface) values over the modelled universe. -/
inductive GoVal where
  | str (s : String)
  | bytes (b : List Nat)
  | int (n : Int)
  | uint (n : Nat)
  | bool (b : Bool)
deriving DecidableEq, Repr

/-- reflect.TypeOf on a non-nil interface value. -/
def typeOf : GoVal → GoType
  | .str _ => .str
  | .bytes _ => .bytes
  | .int _ => .int
  | .uint _ => .uint
  | .bool _ => .bool

/-- reflect.Zero: the zero value of a shape. -/
def zeroVal : GoType → GoVal
  | .str => .str ""
  | .bytes => .bytes []
  | .int => .int 0
  | .uint => .uint 0
  | .bool => .bool false

/-- UTF-8 encoding of one code point (used by Go string-to-byte-slice
conversion). -/
def utf8EncodeChar (n : Nat) : List Nat :=
  if n < 128 then [n]
  else if n < 2048 then [192 + n / 64, 128 + n % 64]
  else if n < 65536 then [224 + n / 4096, 128 + (n / 64) % 64, 128 + n % 64]
  else [240 + n / 262144, 128 + (n / 4096) % 64, 128 + (n / 64) % 64, 128 + n % 64]

/-- Go conversion string -> byte slice. -/
def strToBytes (s : String) : List Nat :=
  (s.data.map (fun c => utf8EncodeChar c.toNat)).flatten

/-- Fuel-driven UTF-8 decoder; malformed sequences decode to U+FFFD as in Go.
The fuel argument is the byte count, so the recursion is total. -/
def utf8DecodeAux : Nat → List Nat → List Char
  | 0, _ => []
  | _ + 1, [] => []
  | fuel + 1, b :: rest =>
    if b < 128 then Char.ofNat b :: utf8DecodeAux fuel rest
    else if 192 ≤ b ∧ b < 224 then
      match rest with
      | b1 :: r =>
        if 128 ≤ b1 ∧ b1 < 192 then
          Char.ofNat ((b - 192) * 64 + (b1 - 128)) :: utf8DecodeAux fuel r
        else Char.ofNat 65533 :: utf8DecodeAux fuel rest
      | [] => [Char.ofNat 65533]
    else if 224 ≤ b ∧ b < 240 then
      match rest with
      | b1 :: b2 :: r =>
        if (128 ≤ b1 ∧ b1 < 192) ∧ (128 ≤ b2 ∧ b2 < 192) then
          Char.ofNat ((b - 224) * 4096 + (b1 - 128) * 64 + (b2 - 128)) ::
            utf8DecodeAux fuel r
        else Char.ofNat 65533 :: utf8DecodeAux fuel rest
      | _ => [Char.ofNat 65533]
    else if 240 ≤ b ∧ b < 248 then
      match rest with
      | b1 :: b2 :: b3 :: r =>
        if (128 ≤ b1 ∧ b1 < 192) ∧ (128 ≤ b2 ∧ b2 < 192) ∧ (128 ≤ b3 ∧ b3 < 192) then
          Char.ofNat ((b - 240) * 262144 + (b1 - 128) * 4096 + (b2 - 128) * 64 +
            (b3 - 128)) :: utf8DecodeAux fuel r
        else Char.ofNat 65533 :: utf8DecodeAux fuel rest
      | _ => [Char.ofNat 65533]
    else Char.ofNat 65533 :: utf8DecodeAux fuel rest

/-- Go conversion byte slice -> string. -/
def bytesToStr (b : List Nat) : String :=
  ⟨utf8DecodeAux b.length b⟩

/-- Go conversion int -> uint on a 64-bit host: two's-complement wraparound. -/
def wrapUint (x : Int) : Nat :=
  (Int.emod x (2 ^ 64)).toNat

/-- Go conversion uint -> int on a 64-bit host: two's-complement wraparound. -/
def wrapInt (n : Nat) : Int :=
  let m : Nat := n % 2 ^ 64
  if m < 2 ^ 63 then (m : Int) else (m : Int) - 2 ^ 64

/-- Go integer-to-string conversion yields the string holding that code point,
or U+FFFD when the integer is not a valid code point. -/
def runeStr (n : Int) : String :=
  if (0 ≤ n ∧ n < 55296) ∨ (57343 < n ∧ n ≤ 1114111) then
    String.singleton (Char.ofNat n.toNat)
  else
    String.singleton (Char.ofNat 65533)

/-- Whether the host can natively convert shape `s` into shape `t`
(reflect.Value.CanConvert restricted to the modelled universe): identity,
string <-> byte slice, numeric <-> numeric, and the (rune) numeric -> string
conversion.  No other pair is convertible (in particular bool converts only
to itself, and nothing parses strings natively). -/
def canConvert : GoType → GoType → Bool
  | .str, .str => true
  | .str, .bytes => true
  | .bytes, .str => true
  | .bytes, .bytes => true
  | .int, .int => true
  | .int, .uint => true
  | .int, .str => true
  | .uint, .int => true
  | .uint, .uint => true
  | .uint, .str => true
  | .bool, .bool => true
  | _, _ => false

/-- reflect.Value.Convert restricted to the modelled universe; only invoked on
pairs for which `canConvert` holds (the catch-all rows are unreachable). -/
def convertVal (src : GoVal) (t : GoType) : GoVal :=
  match src, t with
  | .str s, .str => .str s
  | .str s, .bytes => .bytes (strToBytes s)
  | .bytes b, .str => .str (bytesToStr b)
  | .bytes b, .bytes => .bytes b
  | .int x, .int => .int x
  | .int x, .uint => .uint (wrapUint x)
  | .int x, .str => .str (runeStr x)
  | .uint n, .int => .int (wrapInt n)
  | .uint n, .uint => .uint n
  | .uint n, .str => .str (runeStr (n : Int))
  | .bool b, _ => .bool b
  | v, _ => v

/-! Error messages created by cacher.go itself (verbatim), plus fixed
abbreviations for errors and panics coming from the Go runtime/stdlib. -/

def errKeyEmpty : String := "缓存键 key 不能为空字符串"

def errNilQuery : String := "查询方法 queryFunc 不能为空"

def errExpireMsg : String := "expire need bigger 0"

def errUnsupported : String := "不支持的类型转换"

def errInt63n : String := "invalid argument to Int63n"

def errNilType : String := "reflect: nil type"

def errBadConvType : String := "reflect.Set: value of wrong type"

def errAssert : String := "interface conversion"

def errParseBool : String := "strconv.ParseBool: invalid syntax"

def errAtoi : String := "strconv.Atoi: invalid syntax"

def errAtoiRange : String := "strconv.Atoi: value out of range"

def errParseUint : String := "strconv.ParseUint: invalid syntax"

def errParseUintRange : String := "strconv.ParseUint: value out of range"

/-- strconv.ParseBool: the exact accepted forms. -/
def goParseBool (s : String) : Option GoVal × Option String :=
  if s = "1" ∨ s = "t" ∨ s = "T" ∨ s = "true" ∨ s = "TRUE" ∨ s = "True" then
    (some (.bool true), none)
  else if s = "0" ∨ s = "f" ∨ s = "F" ∨ s = "false" ∨ s = "FALSE" ∨ s = "False" then
    (some (.bool false), none)
  else (none, some errParseBool)

/-- Accumulate a decimal digit string; `none` on any non-digit. -/
def decDigitsAux : List Char → Nat → Option Nat
  | [], acc => some acc
  | c :: r, acc =>
    if c.isDigit then decDigitsAux r (acc * 10 + (c.toNat - 48)) else none

/-- Parse a non-empty all-digit string. -/
def decDigits? : List Char → Option Nat
  | [] => none
  | cs => decDigitsAux cs 0

/-- strconv.Atoi: optional sign, decimal digits, must fit in int64.  Go's Atoi
returns a clamped value together with a range error; since cacher.go checks
the error first, modelling the failing cases as `(none, some e)` is
observationally equivalent. -/
def goAtoi (s : String) : Option GoVal × Option String :=
  let p : Bool × List Char :=
    match s.data with
    | '-' :: r => (true, r)
    | '+' :: r => (false, r)
    | r => (false, r)
  match decDigits? p.2 with
  | none => (none, some errAtoi)
  | some n =>
    let x : Int := if p.1 then -(n : Int) else (n : Int)
    if -(2 ^ 63) ≤ x ∧ x ≤ 2 ^ 63 - 1 then (some (.int x), none)
    else (none, some errAtoiRange)

/-- strconv.ParseUint (base 10, 64 bits): no sign accepted. -/
def goParseUint (s : String) : Option GoVal × Option String :=
  match decDigits? s.data with
  | none => (none, some errParseUint)
  | some n => if n < 2 ^ 64 then (some (.uint n), none) else (none, some errParseUintRange)

/-- A converter function: Go `func(src interface) (interface, error)`. -/
abbrev ConvFn := GoVal → Option GoVal × Option String

/-- TypeConverter of cacher.go.  In the source `SrcType`/`DstType` are example
values whose reflect.TypeOf keys the registry; here the shapes are carried
directly. -/
structure TypeConverter where
  srcType : GoType
  dstType : GoType
  fn : ConvFn

/-- The per-call Option of cacher.go (Go zero values: `NilData` nil,
`NilCacheExpire` 0, `Converters` nil). -/
structure Opt where
  Expire : Int
  NilData : Option GoVal
  NilCacheExpire : Int
  Converters : List TypeConverter

/-- Option.Valid of cacher.go. -/
def Opt.Valid (o : Opt) : Option String :=
  if o.Expire ≤ 0 then some errExpireMsg else none

/-- Option.isCacheNil of cacher.go: whether a nil result is negatively
cached. -/
def Opt.isCacheNil (o : Opt) : Bool :=
  o.NilCacheExpire > 0

/-- The Repo interface of cacher.go.  `get` returns (value-or-absent, error);
`set` returns an error or `none` for success.  The store contents are not
threaded because every claim concerns a single call's trace. -/
structure Repo where
  get : String → Option GoVal × Option String
  set : String → GoVal → Int → Option String

/-- The Cacher struct of cacher.go: default expire plus the registered
converter map (a total lookup function, matching Go map lookup). -/
structure Cacher where
  expire : Int
  typeConv : GoType → GoType → Option ConvFn

/-! The eight default converters registered by New (cacher.go lines 49-111),
minus the two float64 rows, which fall outside the modelled universe. -/

def convStrBool : ConvFn := fun v =>
  match v with
  | .str s => goParseBool s
  | _ => (none, some errAssert)

def convStrInt : ConvFn := fun v =>
  match v with
  | .str s => goAtoi s
  | _ => (none, some errAssert)

def convStrUint : ConvFn := fun v =>
  match v with
  | .str s => goParseUint s
  | _ => (none, some errAssert)

def convBytesBool : ConvFn := fun v =>
  match v with
  | .bytes b => goParseBool (bytesToStr b)
  | _ => (none, some errAssert)

def convBytesInt : ConvFn := fun v =>
  match v with
  | .bytes b => goAtoi (bytesToStr b)
  | _ => (none, some errAssert)

def convBytesUint : ConvFn := fun v =>
  match v with
  | .bytes b => goParseUint (bytesToStr b)
  | _ => (none, some errAssert)

/-- The registry a fresh Cacher starts with. -/
def defaultTypeConv : GoType → GoType → Option ConvFn
  | .str, .bool => some convStrBool
  | .str, .int => some convStrInt
  | .str, .uint => some convStrUint
  | .bytes, .bool => some convBytesBool
  | .bytes, .int => some convBytesInt
  | .bytes, .uint => some convBytesUint
  | _, _ => none

/-- New of cacher.go: panics (here: `none`) when expire is non-positive. -/
def newCacher (expire : Int) : Option Cacher :=
  if expire ≤ 0 then none else some ⟨expire, defaultTypeConv⟩

/-- The destination argument of GetWithOption, after the source's `indirect`
has stripped pointer indirection: either a concretely typed slot holding its
current value, or an interface-typed slot holding its current dynamic value
(`none` when the interface holds nothing). -/
inductive Dest where
  | typed (t : GoType) (cur : GoVal)
  | iface (dyn : Option GoVal)
deriving DecidableEq, Repr

/-- One Store.Set invocation, as observed on the call's trace. -/
structure SetCall where
  key : String
  value : GoVal
  ttl : Int
deriving DecidableEq, Repr

/-- Outcome of a call: a normal return `(useCache, nil)`, an error return
`(false, err)`, or a Go panic. -/
inductive Outcome where
  | ok (useCache : Bool)
  | err (e : String)
  | panicked (msg : String)
deriving DecidableEq, Repr

/-- Result of one modelled GetWithOption call: the outcome, the final
destination contents, the keys probed via Store.Get, the Store.Set calls
issued, and how many times the producer ran. -/
structure GetResult where
  outcome : Outcome
  dest : Dest
  gets : List String
  sets : List SetCall
  pcalls : Nat
deriving DecidableEq, Repr

/-- Result of the singleflight callback (cacher.go lines 194-222): the shared
value-or-error (a panic inside the callback propagates), as Go's
`(interface, error)` pair collapsed to the cases the caller distinguishes. -/
inductive SfRes where
  | ok (v : Option GoVal)
  | err (e : String)
  | panicked (msg : String)
deriving DecidableEq, Repr

/-- The singleflight callback's observable effect: its shared result and the
Store.Set calls it issued. -/
structure MissExec where
  res : SfRes
  sets : List SetCall
deriving Repr

/-- The lines-172-182 destination resolution: the target shape `toType`.
A concretely typed slot contributes its own shape; an interface slot
contributes the shape of its current dynamic value; an empty interface slot
makes the source panic inside `indirectType` (modelled as `none`).
Pointer-shaped dynamic values are outside the modelled universe. -/
def resolveToType : Dest → Option GoType
  | .typed t _ => some t
  | .iface (some dyn) => some (typeOf dyn)
  | .iface none => none

/-- Option defaulting and mutation (cacher.go lines 164-167). -/
def applyOptFn (c : Cacher) (optFn : Option (Opt → Opt)) : Opt :=
  let opt0 : Opt := ⟨c.expire, none, 0, []⟩
  match optFn with
  | none => opt0
  | some f => f opt0

/-- First matching call-scoped converter (the loop at cacher.go lines
234-247): exact shape-pair match, first hit wins. -/
def findOptConv : List TypeConverter → GoType → GoType → Option ConvFn
  | [], _, _ => none
  | cv :: rest, s, t =>
    if cv.srcType = s ∧ cv.dstType = t then some cv.fn else findOptConv rest s t

/-- Running a matched converter function (cacher.go lines 236-244 and
255-263): an error aborts; a nil result writes the zero value of the
destination shape; a non-nil result must be assignable to the destination
slot or reflect.Value.Set panics. -/
inductive CoerceRes where
  | written (w : GoVal)
  | convErr (e : String)
  | unsupported
  | panicked (msg : String)
deriving DecidableEq, Repr

def applyConvFn (fn : ConvFn) (toType : GoType) (src : GoVal) : CoerceRes :=
  match fn src with
  | (_, some e) => .convErr e
  | (some val, none) =>
    if typeOf val = toType then .written val else .panicked errBadConvType
  | (none, none) => .written (zeroVal toType)

/-- The coercion engine (cacher.go lines 232-266): call-scoped converters
first, then the host's native conversion, then the registry; no match is the
unsupported-conversion error. -/
def coerceVal (c : Cacher) (opt : Opt) (toType : GoType) (src : GoVal) : CoerceRes :=
  let fromType := typeOf src
  match findOptConv opt.Converters fromType toType with
  | some fn => applyConvFn fn toType src
  | none =>
    if canConvert fromType toType then .written (convertVal src toType)
    else
      match c.typeConv fromType toType with
      | some fn => applyConvFn fn toType src
      | none => .unsupported

/-- Mapping a coercion result to the call's outcome and the value written
into the destination slot, given the useCache flag in force. -/
def coerceOutcome (c : Cacher) (opt : Opt) (toType : GoType) (src : GoVal)
    (useCache : Bool) : Outcome × Option GoVal :=
  match coerceVal c opt toType src with
  | .written w => (.ok useCache, some w)
  | .convErr e => (.err e, none)
  | .unsupported => (.err errUnsupported, none)
  | .panicked m => (.panicked m, none)

/-- The singleflight callback of cacher.go lines 194-222, for one execution:
run the producer; on "no data" either skip (negative caching disabled) or
store the nil entry; on a genuine value store it under a jittered ttl.
`rng bound` stands for the value rand.Int63n(bound) returns; Int63n panics
when its bound is non-positive.  Go's `int64(opt.Expire)/10` truncates toward
zero, which is `Int.tdiv`. -/
def missExec (repo : Repo) (key : String) (qf : Option GoVal × Option String)
    (opt : Opt) (toType : GoType) (rng : Int → Int) : MissExec :=
  match qf.2 with
  | some e => ⟨.err e, []⟩
  | none =>
    match qf.1 with
    | none =>
      if opt.isCacheNil then
        let nilFrom := match opt.NilData with
          | some nd => nd
          | none => zeroVal toType
        match repo.set key nilFrom opt.NilCacheExpire with
        | some e => ⟨.err e, [⟨key, nilFrom, opt.NilCacheExpire⟩]⟩
        | none => ⟨.ok (some nilFrom), [⟨key, nilFrom, opt.NilCacheExpire⟩]⟩
      else ⟨.ok none, []⟩
    | some qd =>
      let bound := Int.tdiv opt.Expire 10
      if bound ≤ 0 then ⟨.panicked errInt63n, []⟩
      else
        let cacheExpire := opt.Expire + rng bound
        match repo.set key qd cacheExpire with
        | some e => ⟨.err e, [⟨key, qd, cacheExpire⟩]⟩
        | none => ⟨.ok (some qd), [⟨key, qd, cacheExpire⟩]⟩

/-- Per-caller handling of the shared singleflight result (cacher.go lines
223-231 followed by the coercion): an error or absent shared value returns
directly; otherwise coerce with useCache false. -/
def postRes (c : Cacher) (opt : Opt) (toType : GoType) (ex : MissExec) :
    Outcome × Option GoVal :=
  match ex.res with
  | .panicked m => (.panicked m, none)
  | .err e => (.err e, none)
  | .ok none => (.ok false, none)
  | .ok (some sfVal) => coerceOutcome c opt toType sfVal false

/-- One caller's probe-and-compute core (cacher.go lines 184-266), given the
already-resolved target shape.  The Store error is checked before the value,
exactly as in the source. -/
structure CoreResult where
  ow : Outcome × Option GoVal
  sets : List SetCall
  pcalls : Nat

def getCore (c : Cacher) (repo : Repo) (key : String)
    (qf : Option GoVal × Option String) (opt : Opt) (toType : GoType)
    (rng : Int → Int) : CoreResult :=
  match repo.get key with
  | (_, some e) => ⟨(.err e, none), [], 0⟩
  | (some cd, none) => ⟨coerceOutcome c opt toType cd true, [], 0⟩
  | (none, none) =>
    let ex := missExec repo key qf opt toType rng
    ⟨postRes c opt toType ex, ex.sets, 1⟩

/-- Re-assembling the final destination contents.  For a typed slot the
written value (if any) replaces the current one.  For an interface slot the
source replaces `to` by a fresh zero slot of the dynamic type and defers
`oldTo.Set(to)` (cacher.go lines 175-182), so on EVERY exit after that point
the slot receives the fresh slot's contents - the written value if the
coercion ran, otherwise the zero value of the dynamic type. -/
def assembleDest (v : Dest) (w : Option GoVal) : Dest :=
  match v with
  | .typed t cur => .typed t (w.getD cur)
  | .iface (some dyn) => .iface (some (w.getD (zeroVal (typeOf dyn))))
  | .iface none => .iface none

/-- GetWithOption of cacher.go (lines 151-267) for a single caller.
`queryFunc = none` models a nil producer; otherwise the pair is the
producer's eventual `(data, err)`.  `rng bound` models rand.Int63n(bound). -/
def getWithOption (c : Cacher) (repo : Repo) (key : String)
    (queryFunc : Option (Option GoVal × Option String)) (v : Dest)
    (optFn : Option (Opt → Opt)) (rng : Int → Int) : GetResult :=
  if key = "" then ⟨.err errKeyEmpty, v, [], [], 0⟩
  else
    match queryFunc with
    | none => ⟨.err errNilQuery, v, [], [], 0⟩
    | some qf =>
      let opt := applyOptFn c optFn
      match opt.Valid with
      | some e => ⟨.err e, v, [], [], 0⟩
      | none =>
        match resolveToType v with
        | none => ⟨.panicked errNilType, v, [], [], 0⟩
        | some toType =>
          let core := getCore c repo key qf opt toType rng
          ⟨core.ow.1, assembleDest v core.ow.2, [key], core.sets, core.pcalls⟩

/-- Get of cacher.go delegates to GetWithOption with a nil option mutator. -/
def get (c : Cacher) (repo : Repo) (key : String)
    (queryFunc : Option (Option GoVal × Option String)) (v : Dest)
    (rng : Int → Int) : GetResult :=
  getWithOption c repo key queryFunc v none rng

/-- One caller's share of a batch: resolve its own destination shape, consume
the shared singleflight result, and write back its own destination - the
per-caller part of cacher.go lines 172-182 and 223-266. -/
def callerPost (c : Cacher) (opt : Opt) (ex : MissExec) (v : Dest) :
    Outcome × Dest :=
  match resolveToType v with
  | none => (.panicked errNilType, v)
  | some t =>
    let ow := postRes c opt t ex
    (ow.1, assembleDest v ow.2)

/-- Joint result of N concurrent Get calls on one absent key: per-caller
outcomes and destinations, the number of producer executions, and the
Store.Set calls issued. -/
structure BatchResult where
  callers : List (Outcome × Dest)
  execs : Nat
  sets : List SetCall

/-- Modelled from the spec: the Deduplication Group (spec 4.2), i.e. the
singleflight.Group of golang.org/x/sync - an external dependency whose code is
not under src/.  N concurrent callers that all found `key` absent collapse
into exactly one execution of the callback (run here with the winning
caller's resolved target shape `t0`); every caller then consumes the shared
result through the per-caller code of cacher.go.  An empty batch runs
nothing. -/
def getBatch (c : Cacher) (repo : Repo) (key : String)
    (qf : Option GoVal × Option String) (opt : Opt) (dests : List Dest)
    (t0 : GoType) (rng : Int → Int) : BatchResult :=
  match dests with
  | [] => ⟨[], 0, []⟩
  | _ :: _ =>
    let ex := missExec repo key qf opt t0 rng
    ⟨dests.map (fun d => callerPost c opt ex d), 1, ex.sets⟩

/-! Concrete fixtures used by the witness and counterexample theorems. -/

/-- A Cacher with the default registry and a 10s default expire. -/
def cW : Cacher := ⟨10000000000, defaultTypeConv⟩

/-- A store with no entry for any key; Set always succeeds. -/
def repoAbsent : Repo := ⟨fun _ => (none, none), fun _ _ _ => none⟩

/-- A store holding a bool entry for every key; Set always succeeds. -/
def repoHitBool : Repo := ⟨fun _ => (some (.bool true), none), fun _ _ _ => none⟩

/-- A store holding the text entry "7" for every key. -/
def repoHitStr7 : Repo := ⟨fun _ => (some (.str "7"), none), fun _ _ _ => none⟩

/-- A store with no entry for any key whose Set always fails. -/
def repoSetFail : Repo := ⟨fun _ => (none, none), fun _ _ _ => some "set failed"⟩

/-- A degenerate random draw. -/
def rng0 : Int → Int := fun _ => 0

/-- A random draw of three nanoseconds. -/
def rng3 : Int → Int := fun _ => 3

/-- A call-scoped converter function returning the constant 99. -/
def cvFn99 : ConvFn := fun _ => (some (.int 99), none)

example :
    (getWithOption cW repoHitStr7 "k" (some (some (.int 1), none))
      (.typed .int (.int 0)) none rng0).dest = .typed .int (.int 7) := by
  rfl

example :
    (getWithOption cW repoHitBool "k" (some (some (.int 1), none))
      (.typed .str (.str "")) none rng0).outcome = .err errUnsupported := by
  rfl

example :
    getWithOption cW repoAbsent "k" (some (none, none))
      (.iface (some (.int 42))) none rng0 =
      ⟨.ok false, .iface (some (.int 0)), ["k"], [], 1⟩ := by
  rfl

example :
    getWithOption cW repoAbsent "k" (some (some (.str "fresh"), none))
      (.typed .str (.str "old")) none rng3 =
      ⟨.ok false, .typed .str (.str "fresh"), ["k"],
        [⟨"k", .str "fresh", 10000000003⟩], 1⟩ := by
  rfl

/-- Division by ten truncates a positive duration below ten to zero. -/
theorem tdiv_ten_eq_zero {a : Int} (h0 : 0 < a) (h : a < 10) :
    Int.tdiv a 10 = 0 := by
  interval_cases a <;> rfl

/-- C6: a call with an empty key, a nil producer, or a non-positive effective
Expire fails immediately with the corresponding invalid-argument or
invalid-option error; the Store is never probed or written, the producer never
runs, and the destination is untouched. -/
theorem c6_validation_no_store (c : Cacher) (repo : Repo) (key : String)
    (queryFunc : Option (Option GoVal × Option String)) (v : Dest)
    (optFn : Option (Opt → Opt)) (rng : Int → Int)
    (h : key = "" ∨ queryFunc = none ∨ (applyOptFn c optFn).Expire ≤ 0) :
    (getWithOption c repo key queryFunc v optFn rng).gets = [] ∧
    (getWithOption c repo key queryFunc v optFn rng).sets = [] ∧
    (getWithOption c repo key queryFunc v optFn rng).pcalls = 0 ∧
    (getWithOption c repo key queryFunc v optFn rng).dest = v ∧
    ((getWithOption c repo key queryFunc v optFn rng).outcome = .err errKeyEmpty ∨
      (getWithOption c repo key queryFunc v optFn rng).outcome = .err errNilQuery ∨
      (getWithOption c repo key queryFunc v optFn rng).outcome = .err errExpireMsg) := by
  by_cases hk : key = ""
  · simp [getWithOption, hk]
  · rcases h with h | h | h
    · exact absurd h hk
    · subst h
      simp [getWithOption, hk]
    · cases queryFunc with
      | none => simp [getWithOption, hk]
      | some qf =>
        have hval : (applyOptFn c optFn).Valid = some errExpireMsg := by
          unfold Opt.Valid
          rw [if_pos h]
        simp [getWithOption, hk, hval]

/-- C6 witness: an empty key is rejected without any Store traffic. -/
theorem c6_validation_no_store_witness :
    (getWithOption cW repoAbsent "" (some (some (.int 1), none))
        (.typed .int (.int 0)) none rng0).gets = [] ∧
    (getWithOption cW repoAbsent "" (some (some (.int 1), none))
        (.typed .int (.int 0)) none rng0).sets = [] ∧
    (getWithOption cW repoAbsent "" (some (some (.int 1), none))
        (.typed .int (.int 0)) none rng0).pcalls = 0 ∧
    (getWithOption cW repoAbsent "" (some (some (.int 1), none))
        (.typed .int (.int 0)) none rng0).dest = .typed .int (.int 0) ∧
    ((getWithOption cW repoAbsent "" (some (some (.int 1), none))
        (.typed .int (.int 0)) none rng0).outcome = .err errKeyEmpty ∨
      (getWithOption cW repoAbsent "" (some (some (.int 1), none))
        (.typed .int (.int 0)) none rng0).outcome = .err errNilQuery ∨
      (getWithOption cW repoAbsent "" (some (some (.int 1), none))
        (.typed .int (.int 0)) none rng0).outcome = .err errExpireMsg) :=
  c6_validation_no_store cW repoAbsent "" (some (some (.int 1), none))
    (.typed .int (.int 0)) none rng0 (Or.inl rfl)

/-- C10: Option validation accepts every positive Expire, yet for an effective
Expire strictly between 0 and 10 nanoseconds the genuine-value miss path
panics while computing the jittered ttl - int64(Expire)/10 truncates to 0 and
rand.Int63n demands a positive bound - so Expire > 0 alone does not let the
miss path complete; nothing is stored. -/
theorem c10_small_expire_panics (c : Cacher) (repo : Repo) (key : String)
    (qd : GoVal) (v : Dest) (tT : GoType) (optFn : Option (Opt → Opt))
    (rng : Int → Int) (hk : key ≠ "") (hget : repo.get key = (none, none))
    (hv : resolveToType v = some tT)
    (h0 : 0 < (applyOptFn c optFn).Expire)
    (h10 : (applyOptFn c optFn).Expire < 10) :
    (applyOptFn c optFn).Valid = none ∧
    (getWithOption c repo key (some (some qd, none)) v optFn rng).outcome =
      .panicked errInt63n ∧
    (getWithOption c repo key (some (some qd, none)) v optFn rng).sets = [] := by
  have hval : (applyOptFn c optFn).Valid = none := by
    unfold Opt.Valid
    rw [if_neg (by omega)]
  have hb : Int.tdiv (applyOptFn c optFn).Expire 10 = 0 := tdiv_ten_eq_zero h0 h10
  refine ⟨hval, ?_⟩
  simp only [getWithOption, getCore, missExec, postRes, hk, hval, hget, hv, hb,
    if_neg hk]
  simp [assembleDest]

/-- An option mutator shrinking Expire to five nanoseconds. -/
def optExpire5 : Option (Opt → Opt) := some (fun o => { o with Expire := 5 })

/-- C10 witness: with a five-nanosecond Expire, validation accepts but the
genuine-value miss path panics. -/
theorem c10_small_expire_panics_witness :
    (applyOptFn cW optExpire5).Valid = none ∧
    (getWithOption cW repoAbsent "k" (some (some (.int 1), none))
        (.typed .int (.int 0)) optExpire5 rng0).outcome = .panicked errInt63n ∧
    (getWithOption cW repoAbsent "k" (some (some (.int 1), none))
        (.typed .int (.int 0)) optExpire5 rng0).sets = [] :=
  c10_small_expire_panics cW repoAbsent "k" (.int 1) (.typed .int (.int 0))
    .int optExpire5 rng0 (by decide) rfl rfl (by decide) (by decide)

/-- C5: whenever a freshly produced genuine value is stored, exactly one
Store.Set is issued and its ttl equals Expire plus the random draw
rand.Int63n(Expire/10); under the draw's contract the ttl lies in the
half-open interval [Expire, Expire + Expire/10). -/
theorem c5_ttl_jitter_range (c : Cacher) (repo : Repo) (key : String)
    (qd : GoVal) (v : Dest) (tT : GoType) (optFn : Option (Opt → Opt))
    (rng : Int → Int) (hk : key ≠ "") (hget : repo.get key = (none, none))
    (hv : resolveToType v = some tT)
    (hexp : 0 < (applyOptFn c optFn).Expire)
    (hr0 : 0 ≤ rng (Int.tdiv (applyOptFn c optFn).Expire 10))
    (hrb : rng (Int.tdiv (applyOptFn c optFn).Expire 10) <
      Int.tdiv (applyOptFn c optFn).Expire 10) :
    (getWithOption c repo key (some (some qd, none)) v optFn rng).sets =
      [⟨key, qd, (applyOptFn c optFn).Expire +
        rng (Int.tdiv (applyOptFn c optFn).Expire 10)⟩] ∧
    (applyOptFn c optFn).Expire ≤
      (applyOptFn c optFn).Expire +
        rng (Int.tdiv (applyOptFn c optFn).Expire 10) ∧
    (applyOptFn c optFn).Expire +
        rng (Int.tdiv (applyOptFn c optFn).Expire 10) <
      (applyOptFn c optFn).Expire + Int.tdiv (applyOptFn c optFn).Expire 10 := by
  have hval : (applyOptFn c optFn).Valid = none := by
    unfold Opt.Valid
    rw [if_neg (by omega)]
  have hb : ¬ Int.tdiv (applyOptFn c optFn).Expire 10 ≤ 0 := by
    exact not_le.mpr (lt_of_le_of_lt hr0 hrb)
  refine ⟨?_, by linarith, by linarith⟩
  simp only [getWithOption, getCore, missExec, postRes, hval, hget, hv,
    if_neg hk, if_neg hb]
  cases hs : repo.set key qd ((applyOptFn c optFn).Expire +
      rng (Int.tdiv (applyOptFn c optFn).Expire 10)) <;>
    simp [hs]

/-- C5 witness: a ten-second Expire and a three-nanosecond draw yield exactly
one Set with ttl 10000000003, inside the jitter interval. -/
theorem c5_ttl_jitter_range_witness :
    (getWithOption cW repoAbsent "k" (some (some (.str "fresh"), none))
        (.typed .str (.str "old")) none rng3).sets =
      [⟨"k", .str "fresh", 10000000000 + rng3 (Int.tdiv 10000000000 10)⟩] ∧
    (10000000000 : Int) ≤ 10000000000 + rng3 (Int.tdiv 10000000000 10) ∧
    10000000000 + rng3 (Int.tdiv 10000000000 10) <
      10000000000 + Int.tdiv 10000000000 10 :=
  c5_ttl_jitter_range cW repoAbsent "k" (.str "fresh") (.typed .str (.str "old"))
    .str none rng3 (by decide) rfl rfl (by decide) (by decide) (by decide)

/-- C8: when the producer yields a genuine value and the ensuing Store.Set
fails, the whole call fails with that very error (the write failure is not
swallowed), the one attempted Set being on record. -/
theorem c8_set_failure_fatal (c : Cacher) (repo : Repo) (key : String)
    (qd : GoVal) (v : Dest) (tT : GoType) (optFn : Option (Opt → Opt))
    (rng : Int → Int) (e : String) (hk : key ≠ "")
    (hget : repo.get key = (none, none)) (hv : resolveToType v = some tT)
    (hexp : 0 < (applyOptFn c optFn).Expire)
    (hb : 0 < Int.tdiv (applyOptFn c optFn).Expire 10)
    (hset : repo.set key qd ((applyOptFn c optFn).Expire +
      rng (Int.tdiv (applyOptFn c optFn).Expire 10)) = some e) :
    (getWithOption c repo key (some (some qd, none)) v optFn rng).outcome =
      .err e ∧
    (getWithOption c repo key (some (some qd, none)) v optFn rng).sets =
      [⟨key, qd, (applyOptFn c optFn).Expire +
        rng (Int.tdiv (applyOptFn c optFn).Expire 10)⟩] := by
  have hval : (applyOptFn c optFn).Valid = none := by
    unfold Opt.Valid
    rw [if_neg (by omega)]
  simp only [getWithOption, getCore, missExec, postRes, hval, hget, hv,
    if_neg hk, if_neg (not_le.mpr hb), hset]
  simp [assembleDest]

/-- C8 witness: a failing Set on a fresh value makes the whole call fail. -/
theorem c8_set_failure_fatal_witness :
    (getWithOption cW repoSetFail "k" (some (some (.str "fresh"), none))
        (.typed .str (.str "old")) none rng3).outcome = .err "set failed" ∧
    (getWithOption cW repoSetFail "k" (some (some (.str "fresh"), none))
        (.typed .str (.str "old")) none rng3).sets =
      [⟨"k", .str "fresh", 10000000000 + rng3 (Int.tdiv 10000000000 10)⟩] :=
  c8_set_failure_fatal cW repoSetFail "k" (.str "fresh") (.typed .str (.str "old"))
    .str none rng3 "set failed" (by decide) rfl rfl (by decide) (by decide) rfl

/-- An Option with no call-scoped converters. -/
def optW0 : Opt := ⟨10000000000, none, 0, []⟩

/-- An Option carrying one call-scoped converter for the pair
(string, int). -/
def optConv99 : Opt := ⟨10000000000, none, 0, [⟨.str, .int, cvFn99⟩]⟩

/-- C7: the coercion order is fixed and deterministic, first match winning:
call-scoped Option converters (exact pair), then the host's native
conversion, then the registry (exact pair); the conclusion of the first part
does not mention the registry at all, so a call-scoped converter for a pair
always beats a registry converter for the same pair; when none of the three
applies the call fails with the unsupported-conversion error. -/
theorem c7_resolution_order :
    (∀ (c : Cacher) (opt : Opt) (t : GoType) (src : GoVal) (fn : ConvFn),
      findOptConv opt.Converters (typeOf src) t = some fn →
      coerceVal c opt t src = applyConvFn fn t src) ∧
    (∀ (c : Cacher) (opt : Opt) (t : GoType) (src : GoVal),
      findOptConv opt.Converters (typeOf src) t = none →
      canConvert (typeOf src) t = true →
      coerceVal c opt t src = .written (convertVal src t)) ∧
    (∀ (c : Cacher) (opt : Opt) (t : GoType) (src : GoVal) (fn : ConvFn),
      findOptConv opt.Converters (typeOf src) t = none →
      canConvert (typeOf src) t = false →
      c.typeConv (typeOf src) t = some fn →
      coerceVal c opt t src = applyConvFn fn t src) ∧
    (∀ (c : Cacher) (opt : Opt) (t : GoType) (src : GoVal),
      findOptConv opt.Converters (typeOf src) t = none →
      canConvert (typeOf src) t = false →
      c.typeConv (typeOf src) t = none →
      coerceVal c opt t src = .unsupported) := by
  refine ⟨?_, ?_, ?_, ?_⟩
  · intro c opt t src fn h
    simp [coerceVal, h]
  · intro c opt t src h hc
    simp [coerceVal, h, hc]
  · intro c opt t src fn h hc hr
    simp [coerceVal, h, hc, hr]
  · intro c opt t src h hc hr
    simp [coerceVal, h, hc, hr]

/-- C7 witness: on the pair (string, int) a call-scoped converter beats the
registry converter; with no call-scoped match the native conversion is used;
with neither, the registry converter runs; with none of the three the
conversion is unsupported. -/
theorem c7_resolution_order_witness :
    coerceVal cW optConv99 .int (.str "7") = applyConvFn cvFn99 .int (.str "7") ∧
    coerceVal cW optW0 .uint (.int 5) = .written (convertVal (.int 5) .uint) ∧
    coerceVal cW optW0 .int (.str "7") = applyConvFn convStrInt .int (.str "7") ∧
    coerceVal cW optW0 .str (.bool true) = .unsupported :=
  ⟨c7_resolution_order.1 cW optConv99 .int (.str "7") cvFn99 rfl,
    c7_resolution_order.2.1 cW optW0 .uint (.int 5) rfl rfl,
    c7_resolution_order.2.2.1 cW optW0 .int (.str "7") convStrInt rfl rfl rfl,
    c7_resolution_order.2.2.2 cW optW0 .str (.bool true) rfl rfl rfl⟩

/-- C9: coercion is idempotent - a value whose runtime shape already equals
the destination's target shape, with no call-scoped converter registered for
that identity pair, is written unchanged (the native identity conversion). -/
theorem c9_coerce_idempotent (c : Cacher) (opt : Opt) (t : GoType) (val : GoVal)
    (hty : typeOf val = t) (hnone : findOptConv opt.Converters t t = none) :
    coerceVal c opt t val = .written val := by
  subst hty
  have hcc : canConvert (typeOf val) (typeOf val) = true := by
    cases val <;> rfl
  have hid : convertVal val (typeOf val) = val := by
    cases val <;> rfl
  simp [coerceVal, hnone, hcc, hid]

/-- C9 witness: an int value aimed at an int destination is written back
unchanged. -/
theorem c9_coerce_idempotent_witness :
    coerceVal cW optW0 .int (.int 5) = .written (.int 5) :=
  c9_coerce_idempotent cW optW0 .int (.int 5) rfl rfl

/-- C2 counterexample: the Store holds a bool entry while the destination is a
string slot; no converter and no native conversion applies, so the call
returns (false, unsupported-conversion error) - not useCache=true - although
the producer still never ran. -/
theorem c2_hit_counterexample :
    (getWithOption cW repoHitBool "k" (some (some (.int 1), none))
        (.typed .str (.str "")) none rng0).outcome = .err errUnsupported ∧
    (getWithOption cW repoHitBool "k" (some (some (.int 1), none))
        (.typed .str (.str "")) none rng0).pcalls = 0 ∧
    ¬ (getWithOption cW repoHitBool "k" (some (some (.int 1), none))
        (.typed .str (.str "")) none rng0).outcome = .ok true := by
  exact ⟨rfl, rfl, by decide⟩

/-- C2 (amended): with a present Store entry the producer never runs and
nothing is written to the Store; whenever the call returns normally its
useCache flag is true (a failing coercion instead returns an error with the
producer still never invoked). -/
theorem c2_hit_no_producer (c : Cacher) (repo : Repo) (key : String)
    (qf : Option GoVal × Option String) (v : Dest) (optFn : Option (Opt → Opt))
    (rng : Int → Int) (cd : GoVal) (hget : repo.get key = (some cd, none)) :
    (getWithOption c repo key (some qf) v optFn rng).pcalls = 0 ∧
    (getWithOption c repo key (some qf) v optFn rng).sets = [] ∧
    ∀ b, (getWithOption c repo key (some qf) v optFn rng).outcome = .ok b →
      b = true := by
  by_cases hk : key = ""
  · simp [getWithOption, hk]
  · cases hval : (applyOptFn c optFn).Valid with
    | some e => simp [getWithOption, hk, hval]
    | none =>
      cases hv : resolveToType v with
      | none => simp [getWithOption, hk, hval, hv]
      | some tT =>
        simp only [getWithOption, getCore, coerceOutcome, hval, hget, hv,
          if_neg hk]
        cases hco : coerceVal c (applyOptFn c optFn) tT cd <;> simp [hco]

/-- C2 witness: a "7" text entry aimed at an int destination is served from
cache with useCache=true and zero producer calls. -/
theorem c2_hit_no_producer_witness :
    repoHitStr7.get "k" = (some (.str "7"), none) ∧
    ((getWithOption cW repoHitStr7 "k" (some (some (.int 1), none))
        (.typed .int (.int 0)) none rng0).pcalls = 0 ∧
      (getWithOption cW repoHitStr7 "k" (some (some (.int 1), none))
        (.typed .int (.int 0)) none rng0).sets = [] ∧
      ∀ b, (getWithOption cW repoHitStr7 "k" (some (some (.int 1), none))
        (.typed .int (.int 0)) none rng0).outcome = .ok b → b = true) :=
  ⟨rfl, c2_hit_no_producer cW repoHitStr7 "k" (some (.int 1), none)
    (.typed .int (.int 0)) none rng0 (.str "7") rfl⟩

/-- C3 counterexample: with the key absent, the producer yielding no data and
negative caching disabled, a pointer-to-interface destination holding the int
42 is NOT left at its prior value - the deferred write-back of cacher.go
lines 177-181 overwrites it with the zero value of its dynamic type - even
though the call returns (useCache=false, nil) and nothing is stored. -/
theorem c3_iface_counterexample :
    getWithOption cW repoAbsent "k" (some (none, none))
        (.iface (some (.int 42))) none rng0 =
      ⟨.ok false, .iface (some (.int 0)), ["k"], [], 1⟩ ∧
    Dest.iface (some (.int 0)) ≠ .iface (some (.int 42)) :=
  ⟨rfl, by decide⟩

/-- C3 (amended): with the key absent, the producer yielding no data and
negative caching disabled, nothing is written to the Store and the call
returns (useCache=false, nil); a concretely typed destination keeps its prior
value, but a pointer-to-interface destination is overwritten with the zero
value of its dynamic type. -/
theorem c3_nodata_frame (c : Cacher) (repo : Repo) (key : String) (v : Dest)
    (optFn : Option (Opt → Opt)) (rng : Int → Int) (hk : key ≠ "")
    (hget : repo.get key = (none, none))
    (hexp : 0 < (applyOptFn c optFn).Expire)
    (hnil : (applyOptFn c optFn).NilCacheExpire ≤ 0) (hv : v ≠ .iface none) :
    (getWithOption c repo key (some (none, none)) v optFn rng).outcome =
      .ok false ∧
    (getWithOption c repo key (some (none, none)) v optFn rng).sets = [] ∧
    (getWithOption c repo key (some (none, none)) v optFn rng).pcalls = 1 ∧
    (∀ t cur, v = .typed t cur →
      (getWithOption c repo key (some (none, none)) v optFn rng).dest = v) ∧
    (∀ dyn, v = .iface (some dyn) →
      (getWithOption c repo key (some (none, none)) v optFn rng).dest =
        .iface (some (zeroVal (typeOf dyn)))) := by
  have hval : (applyOptFn c optFn).Valid = none := by
    unfold Opt.Valid
    rw [if_neg (by omega)]
  have hcn : (applyOptFn c optFn).isCacheNil = false := by
    simp only [Opt.isCacheNil, decide_eq_false_iff_not, not_lt]
    omega
  cases v with
  | typed t cur =>
    simp [getWithOption, getCore, missExec, postRes, resolveToType,
      assembleDest, hval, hget, hcn, if_neg hk]
  | iface dyn =>
    cases dyn with
    | none => exact absurd rfl hv
    | some d =>
      simp [getWithOption, getCore, missExec, postRes, resolveToType,
        assembleDest, hval, hget, hcn, if_neg hk]

/-- C3 witness: a typed string destination keeps its prior value on the
no-data-no-negative-caching path. -/
theorem c3_nodata_frame_witness :
    (getWithOption cW repoAbsent "k" (some (none, none))
        (.typed .str (.str "old")) none rng0).outcome = .ok false ∧
    (getWithOption cW repoAbsent "k" (some (none, none))
        (.typed .str (.str "old")) none rng0).sets = [] ∧
    (getWithOption cW repoAbsent "k" (some (none, none))
        (.typed .str (.str "old")) none rng0).pcalls = 1 ∧
    (∀ t cur, Dest.typed .str (.str "old") = .typed t cur →
      (getWithOption cW repoAbsent "k" (some (none, none))
        (.typed .str (.str "old")) none rng0).dest = .typed .str (.str "old")) ∧
    (∀ dyn, Dest.typed .str (.str "old") = .iface (some dyn) →
      (getWithOption cW repoAbsent "k" (some (none, none))
        (.typed .str (.str "old")) none rng0).dest =
        .iface (some (zeroVal (typeOf dyn)))) :=
  c3_nodata_frame cW repoAbsent "k" (.typed .str (.str "old")) none rng0
    (by decide) rfl (by decide) (by decide) (by decide)

/-- An option mutator enabling negative caching with an explicit bool NilData
and a five-nanosecond negative ttl. -/
def optNilBool5 : Option (Opt → Opt) :=
  some (fun o => { o with NilCacheExpire := 5, NilData := some (.bool true) })

/-- An option mutator enabling negative caching with a ten-nanosecond
negative ttl and no NilData. -/
def optNil10 : Option (Opt → Opt) :=
  some (fun o => { o with NilCacheExpire := 10 })

/-- C4 counterexample: with negative caching enabled, NilData a bool and the
destination an int slot, the single Set with value NilData and ttl NilExpire
does happen, but the call then fails with the unsupported-conversion error
instead of returning (useCache=false, nil), leaving the destination at its
prior value. -/
theorem c4_counterexample :
    getWithOption cW repoAbsent "k" (some (none, none)) (.typed .int (.int 7))
        optNilBool5 rng0 =
      ⟨.err errUnsupported, .typed .int (.int 7), ["k"],
        [⟨"k", .bool true, 5⟩], 1⟩ :=
  rfl

/-- C4 (amended): with the key absent, the producer yielding no data and
negative caching enabled, exactly one Store.Set is issued whose value is
NilData when set and otherwise the zero value of the target shape, with ttl
exactly NilExpire (no jitter); provided that Set succeeds and the coercion of
the stored value into the destination succeeds, the call returns
(useCache=false, nil) with that value written to the destination. -/
theorem c4_negative_cache_store (c : Cacher) (repo : Repo) (key : String)
    (v : Dest) (tT : GoType) (optFn : Option (Opt → Opt)) (rng : Int → Int)
    (hk : key ≠ "") (hget : repo.get key = (none, none))
    (hv : resolveToType v = some tT)
    (hexp : 0 < (applyOptFn c optFn).Expire)
    (hnil : 0 < (applyOptFn c optFn).NilCacheExpire) :
    (getWithOption c repo key (some (none, none)) v optFn rng).sets =
      [⟨key, ((applyOptFn c optFn).NilData).getD (zeroVal tT),
        (applyOptFn c optFn).NilCacheExpire⟩] ∧
    (getWithOption c repo key (some (none, none)) v optFn rng).pcalls = 1 ∧
    (repo.set key (((applyOptFn c optFn).NilData).getD (zeroVal tT))
        (applyOptFn c optFn).NilCacheExpire = none →
      ∀ w, coerceVal c (applyOptFn c optFn) tT
          (((applyOptFn c optFn).NilData).getD (zeroVal tT)) = .written w →
        (getWithOption c repo key (some (none, none)) v optFn rng).outcome =
          .ok false ∧
        (getWithOption c repo key (some (none, none)) v optFn rng).dest =
          assembleDest v (some w)) := by
  have hval : (applyOptFn c optFn).Valid = none := by
    unfold Opt.Valid
    rw [if_neg (by omega)]
  have hcn : (applyOptFn c optFn).isCacheNil = true := by
    simp only [Opt.isCacheNil, decide_eq_true_eq]
    omega
  cases hnd : (applyOptFn c optFn).NilData with
  | none =>
    simp only [getWithOption, getCore, missExec, postRes, coerceOutcome,
      hval, hget, hv, hcn, hnd, if_neg hk, Option.getD_none, if_true]
    cases hs : repo.set key (zeroVal tT) (applyOptFn c optFn).NilCacheExpire with
    | some e => simp [hs]
    | none =>
      simp only [hs]
      refine ⟨by trivial, by trivial, fun _ w hw => ?_⟩
      simp [hw]
  | some nd =>
    simp only [getWithOption, getCore, missExec, postRes, coerceOutcome,
      hval, hget, hv, hcn, hnd, if_neg hk, Option.getD_some, if_true]
    cases hs : repo.set key nd (applyOptFn c optFn).NilCacheExpire with
    | some e => simp [hs]
    | none =>
      simp only [hs]
      refine ⟨by trivial, by trivial, fun _ w hw => ?_⟩
      simp [hw]

/-- C4 witness: with no NilData set and a string destination, the zero value
"" is stored for ten nanoseconds and written through to the caller. -/
theorem c4_negative_cache_store_witness :
    (getWithOption cW repoAbsent "k" (some (none, none))
        (.typed .str (.str "old")) optNil10 rng0).sets =
      [⟨"k", ((applyOptFn cW optNil10).NilData).getD (zeroVal .str),
        (applyOptFn cW optNil10).NilCacheExpire⟩] ∧
    (repoAbsent.set "k" (((applyOptFn cW optNil10).NilData).getD (zeroVal .str))
        (applyOptFn cW optNil10).NilCacheExpire = none ∧
      coerceVal cW (applyOptFn cW optNil10) .str
        (((applyOptFn cW optNil10).NilData).getD (zeroVal .str)) =
        .written (.str "")) ∧
    (getWithOption cW repoAbsent "k" (some (none, none))
        (.typed .str (.str "old")) optNil10 rng0).outcome = .ok false := by
  refine ⟨(c4_negative_cache_store cW repoAbsent "k" (.typed .str (.str "old"))
    .str optNil10 rng0 (by decide) rfl rfl (by decide) (by decide)).1,
    ⟨rfl, rfl⟩, ?_⟩
  exact ((c4_negative_cache_store cW repoAbsent "k" (.typed .str (.str "old"))
    .str optNil10 rng0 (by decide) rfl rfl (by decide) (by decide)).2.2 rfl
    (.str "") rfl).1

/-- A single execution of the singleflight callback issues at most one
Store.Set. -/
theorem missExec_sets_le_one (repo : Repo) (key : String)
    (qf : Option GoVal × Option String) (opt : Opt) (t0 : GoType)
    (rng : Int → Int) : (missExec repo key qf opt t0 rng).sets.length ≤ 1 := by
  unfold missExec
  rcases qf with ⟨qd, qe⟩
  cases qe with
  | some e => simp
  | none =>
    cases qd with
    | none =>
      by_cases hcn : opt.isCacheNil
      · simp only [hcn, if_true]
        cases repo.set key (match opt.NilData with
          | some nd => nd
          | none => zeroVal t0) opt.NilCacheExpire <;> simp
      · simp [hcn]
    | some v =>
      by_cases hb : Int.tdiv opt.Expire 10 ≤ 0
      · simp [hb]
      · simp only [hb, if_false]
        cases repo.set key v (opt.Expire + rng (Int.tdiv opt.Expire 10)) <;> simp

/-- C1: N concurrent Get calls on one absent key run the producer through
exactly one singleflight execution; every Store write of the episode comes
from that single execution (so at most one Set is issued), each caller's
result is the per-caller post-processing of the one shared outcome, and in
particular two callers with equal destinations receive identical results. -/
theorem c1_dedup_once (c : Cacher) (repo : Repo) (key : String)
    (qf : Option GoVal × Option String) (opt : Opt) (d0 : Dest)
    (rest : List Dest) (t0 : GoType) (rng : Int → Int)
    (_hget : repo.get key = (none, none)) :
    (getBatch c repo key qf opt (d0 :: rest) t0 rng).execs = 1 ∧
    (getBatch c repo key qf opt (d0 :: rest) t0 rng).sets =
      (missExec repo key qf opt t0 rng).sets ∧
    (missExec repo key qf opt t0 rng).sets.length ≤ 1 ∧
    (getBatch c repo key qf opt (d0 :: rest) t0 rng).callers =
      (d0 :: rest).map (callerPost c opt (missExec repo key qf opt t0 rng)) ∧
    ∀ i j : Nat, (d0 :: rest)[i]? = (d0 :: rest)[j]? →
      (getBatch c repo key qf opt (d0 :: rest) t0 rng).callers[i]? =
        (getBatch c repo key qf opt (d0 :: rest) t0 rng).callers[j]? := by
  refine ⟨rfl, rfl, missExec_sets_le_one repo key qf opt t0 rng, rfl, ?_⟩
  intro i j h
  show ((d0 :: rest).map (callerPost c opt (missExec repo key qf opt t0 rng)))[i]? =
    ((d0 :: rest).map (callerPost c opt (missExec repo key qf opt t0 rng)))[j]?
  rw [List.getElem?_map, List.getElem?_map, h]

/-- C1 witness: three concurrent callers, two of them with identical
destinations, on one absent key: one execution, and the matching callers get
identical results. -/
theorem c1_dedup_once_witness :
    (getBatch cW repoAbsent "k" (some (.int 5), none) optW0
        (Dest.typed .int (.int 0) :: [.typed .int (.int 1), .typed .int (.int 0)])
        .int rng3).execs = 1 ∧
    (getBatch cW repoAbsent "k" (some (.int 5), none) optW0
        (Dest.typed .int (.int 0) :: [.typed .int (.int 1), .typed .int (.int 0)])
        .int rng3).callers[0]? =
      (getBatch cW repoAbsent "k" (some (.int 5), none) optW0
        (Dest.typed .int (.int 0) :: [.typed .int (.int 1), .typed .int (.int 0)])
        .int rng3).callers[2]? :=
  ⟨(c1_dedup_once cW repoAbsent "k" (some (.int 5), none) optW0
      (.typed .int (.int 0)) [.typed .int (.int 1), .typed .int (.int 0)]
      .int rng3 rfl).1,
    (c1_dedup_once cW repoAbsent "k" (some (.int 5), none) optW0
      (.typed .int (.int 0)) [.typed .int (.int 1), .typed .int (.int 0)]
      .int rng3 rfl).2.2.2.2 0 2 rfl⟩
